import Mathlib

set_option linter.unusedVariables false

/-! Verification of the mark serializers of `sanity_html/marker_serializers.py`
(the `python-sanity-html` renderer for portable-text documents).

Each Python class method is embedded as a Lean function. Python exceptions are
modelled with `Except String`: a method that `raise`s a `ValueError` returns
`Except.error` carrying the message, a normal return is `Except.ok`. Class
inheritance is modelled by a record of the two overridable methods
(`render_prefix`, `render_suffix`) plus the class attribute `tag`; the base
class's method bodies are functions of the tag, and each subclass record is
built from either those bodies or its own overrides, exactly as the class
statements do. The base class's `render` reads the methods off the record,
matching Python's dynamic dispatch through `cls`. -/

/-- Modelled from the spec: the `Span` record of `sanity_html/types.py` is not
among the given sources. Section 3 of the spec: raw text content plus an
ordered sequence of mark keys. -/
structure Span where
  text : String
  marks : List String

/-- Modelled from the spec: a mark definition as `LinkSerializer.render_prefix`
reads it — a dict holding its `_key` (always present: definitions are keyed)
and optionally an `href`. A dict that contains `_key` is non-empty, so Python's
truthiness test `if not marker_definition` on a found definition is always
false; `Option` on the lookup result models it exactly. -/
structure MarkDef where
  _key : String
  href : Option String

/-- Modelled from the spec: the `Block` record of `sanity_html/types.py` is not
among the given sources. Section 3 of the spec: an ordered sequence of spans,
a list of mark definitions, and a block-type tag (the style). -/
structure Block where
  children : List Span
  style : String
  markDefs : List MarkDef

/-- A marker-serializer class as a value: its `tag` class attribute and its two
overridable class methods. -/
structure Serializer where
  tag : String
  render_prefix : Span → String → Block → Except String String
  render_suffix : Span → String → Block → Except String String

/-- Body of `MarkerSerializer.render_prefix`: `return f'<{cls.tag}>'`. -/
def MarkerSerializer.render_prefix (tag : String) (span : Span) (marker : String)
    (context : Block) : Except String String :=
  .ok ("<" ++ tag ++ ">")

/-- Body of `MarkerSerializer.render_suffix`: `return f'</{cls.tag}>'`. -/
def MarkerSerializer.render_suffix (tag : String) (span : Span) (marker : String)
    (context : Block) : Except String String :=
  .ok ("</" ++ tag ++ ">")

/-- Body of `MarkerSerializer.render`: `result = cls.render_prefix(...)`,
`result += str(span.text)`, `result += cls.render_suffix(...)`, `return result`.
The two method calls go through `cls`, so they are read off the record. -/
def MarkerSerializer.render (cls : Serializer) (span : Span) (marker : String)
    (context : Block) : Except String String := do
  let result ← cls.render_prefix span marker context
  let result := result ++ span.text
  let suffix ← cls.render_suffix span marker context
  return result ++ suffix

/-- `class DefaultMarkerSerializer(MarkerSerializer): tag = 'span'`. -/
def DefaultMarkerSerializer : Serializer where
  tag := "span"
  render_prefix := MarkerSerializer.render_prefix "span"
  render_suffix := MarkerSerializer.render_suffix "span"

/-- `class EmphasisSerializer(MarkerSerializer): tag = 'em'`. -/
def EmphasisSerializer : Serializer where
  tag := "em"
  render_prefix := MarkerSerializer.render_prefix "em"
  render_suffix := MarkerSerializer.render_suffix "em"

/-- `class StrongSerializer(MarkerSerializer): tag = 'strong'`. -/
def StrongSerializer : Serializer where
  tag := "strong"
  render_prefix := MarkerSerializer.render_prefix "strong"
  render_suffix := MarkerSerializer.render_suffix "strong"

/-- `class CodeSerializer(MarkerSerializer): tag = 'code'`. -/
def CodeSerializer : Serializer where
  tag := "code"
  render_prefix := MarkerSerializer.render_prefix "code"
  render_suffix := MarkerSerializer.render_suffix "code"

/-- Override in `UnderlineSerializer`:
`return '<span style="text-decoration:underline;">'`. -/
def UnderlineSerializer.render_prefix (span : Span) (marker : String)
    (context : Block) : Except String String :=
  .ok "<span style=\"text-decoration:underline;\">"

/-- `class UnderlineSerializer(MarkerSerializer)`: `tag = 'span'`, overrides
`render_prefix`, inherits `render_suffix`. -/
def UnderlineSerializer : Serializer where
  tag := "span"
  render_prefix := UnderlineSerializer.render_prefix
  render_suffix := MarkerSerializer.render_suffix "span"

/-- `class StrikeThroughSerializer(MarkerSerializer): tag = 'del'`. -/
def StrikeThroughSerializer : Serializer where
  tag := "del"
  render_prefix := MarkerSerializer.render_prefix "del"
  render_suffix := MarkerSerializer.render_suffix "del"

/-- Override in `LinkSerializer`: scans `context.markDefs` for the first entry
whose `_key` equals `marker` (Python's `next((md for md in ... if ...), None)`),
raises when there is none, else returns `f'<a href="{href}">'` with
`href = marker_definition.get('href', '')`. -/
def LinkSerializer.render_prefix (span : Span) (marker : String)
    (context : Block) : Except String String :=
  let marker_definition := context.markDefs.find? (fun md => md._key == marker)
  match marker_definition with
  | none =>
      .error ("Marker definition for key: " ++ marker ++ " not found in parent block context")
  | some marker_definition =>
      let href := marker_definition.href.getD ""
      .ok ("<a href=\"" ++ href ++ "\">")

/-- `class LinkSerializer(MarkerSerializer)`: `tag = 'a'`, overrides
`render_prefix`, inherits `render_suffix`. -/
def LinkSerializer : Serializer where
  tag := "a"
  render_prefix := LinkSerializer.render_prefix
  render_suffix := MarkerSerializer.render_suffix "a"

/-- Override in `CommentSerializer`: `return '<!-- '`. -/
def CommentSerializer.render_prefix (span : Span) (marker : String)
    (context : Block) : Except String String :=
  .ok "<!-- "

/-- Override in `CommentSerializer`: `return ' -->'`. -/
def CommentSerializer.render_suffix (span : Span) (marker : String)
    (context : Block) : Except String String :=
  .ok " -->"

/-- `class CommentSerializer(MarkerSerializer)`: `tag = '!--'`, overrides both
methods. -/
def CommentSerializer : Serializer where
  tag := "!--"
  render_prefix := CommentSerializer.render_prefix
  render_suffix := CommentSerializer.render_suffix

/-- Modelled from the spec: the standard HTML-escaping primitive the spec
delegates to (Python's `html.escape`, used by the repository's tests), on one
character: `&`, `<`, `>`, `"` and `'` become entities, all else is kept. -/
def escape_char (c : Char) : String :=
  if c = '&' then "&amp;"
  else if c = '<' then "&lt;"
  else if c = '>' then "&gt;"
  else if c = '"' then "&quot;"
  else if c = '\'' then "&#x27;"
  else String.singleton c

/-- Modelled from the spec: HTML-entity escaping of a string, character by
character (sequential `str.replace` as `html.escape` does is equivalent, since
no replacement output contains a character that is itself replaced later). -/
def html_escape (s : String) : String :=
  String.join (s.data.map escape_char)

/-- The two Python objects a serializer method receives by reference and could
mutate: the span and its owning block. Frame properties are stated over a
state-passing re-reading of each method body, where every statement threads
this pair through. -/
abbrev PyState := Span × Block

/-- State-passing reading of the body of `MarkerSerializer.render_prefix`: the
body is one `return` of an f-string over `cls.tag`; it contains no assignment
to the span or the block. -/
def MarkerSerializer.render_prefix_st (tag : String) (marker : String)
    (st : PyState) : Except String String × PyState :=
  (.ok ("<" ++ tag ++ ">"), st)

/-- State-passing reading of the body of `MarkerSerializer.render_suffix`. -/
def MarkerSerializer.render_suffix_st (tag : String) (marker : String)
    (st : PyState) : Except String String × PyState :=
  (.ok ("</" ++ tag ++ ">"), st)

/-- State-passing reading of the body of `UnderlineSerializer.render_prefix`:
one `return` of a string literal. -/
def UnderlineSerializer.render_prefix_st (marker : String)
    (st : PyState) : Except String String × PyState :=
  (.ok "<span style=\"text-decoration:underline;\">", st)

/-- State-passing reading of the body of `LinkSerializer.render_prefix`: the
`next(...)` scan and the `.get` are reads of `context.markDefs`; both the
`raise` path and the `return` path execute no assignment to the span or the
block. -/
def LinkSerializer.render_prefix_st (marker : String)
    (st : PyState) : Except String String × PyState :=
  let marker_definition := st.2.markDefs.find? (fun md => md._key == marker)
  match marker_definition with
  | none =>
      (.error ("Marker definition for key: " ++ marker ++ " not found in parent block context"), st)
  | some marker_definition =>
      (.ok ("<a href=\"" ++ marker_definition.href.getD "" ++ "\">"), st)

/-- State-passing reading of the body of `CommentSerializer.render_prefix`. -/
def CommentSerializer.render_prefix_st (marker : String)
    (st : PyState) : Except String String × PyState :=
  (.ok "<!-- ", st)

/-- State-passing reading of the body of `CommentSerializer.render_suffix`. -/
def CommentSerializer.render_suffix_st (marker : String)
    (st : PyState) : Except String String × PyState :=
  (.ok " -->", st)

/-- State-passing reading of the body of `MarkerSerializer.render`, where the
two method calls dispatched through `cls` are passed in state-passing form: a
raised exception propagates, `result += str(span.text)` reads the span's text
from the current state. -/
def MarkerSerializer.render_st
    (pfx sfx : String → PyState → Except String String × PyState)
    (marker : String) (st : PyState) : Except String String × PyState :=
  match pfx marker st with
  | (.error e, st1) => (.error e, st1)
  | (.ok result, st1) =>
    let result := result ++ st1.1.text
    match sfx marker st1 with
    | (.error e, st2) => (.error e, st2)
    | (.ok suffix, st2) => (.ok (result ++ suffix), st2)

/-- C4: each style serializer returns its fixed opening and closing tag
(`<em>`, `<strong>`, `<code>`, `<del>`) for every span, marker key and block
context, and the returned strings do not depend on the span, the marker key or
the context. -/
theorem style_serializers_fixed_tags (s s2 : Span) (m m2 : String) (c c2 : Block) :
    EmphasisSerializer.render_prefix s m c = .ok "<em>"
    ∧ EmphasisSerializer.render_suffix s m c = .ok "</em>"
    ∧ StrongSerializer.render_prefix s m c = .ok "<strong>"
    ∧ StrongSerializer.render_suffix s m c = .ok "</strong>"
    ∧ CodeSerializer.render_prefix s m c = .ok "<code>"
    ∧ CodeSerializer.render_suffix s m c = .ok "</code>"
    ∧ StrikeThroughSerializer.render_prefix s m c = .ok "<del>"
    ∧ StrikeThroughSerializer.render_suffix s m c = .ok "</del>"
    ∧ EmphasisSerializer.render_prefix s m c = EmphasisSerializer.render_prefix s2 m2 c2
    ∧ EmphasisSerializer.render_suffix s m c = EmphasisSerializer.render_suffix s2 m2 c2
    ∧ StrongSerializer.render_prefix s m c = StrongSerializer.render_prefix s2 m2 c2
    ∧ StrongSerializer.render_suffix s m c = StrongSerializer.render_suffix s2 m2 c2
    ∧ CodeSerializer.render_prefix s m c = CodeSerializer.render_prefix s2 m2 c2
    ∧ CodeSerializer.render_suffix s m c = CodeSerializer.render_suffix s2 m2 c2
    ∧ StrikeThroughSerializer.render_prefix s m c = StrikeThroughSerializer.render_prefix s2 m2 c2
    ∧ StrikeThroughSerializer.render_suffix s m c = StrikeThroughSerializer.render_suffix s2 m2 c2 :=
  ⟨rfl, rfl, rfl, rfl, rfl, rfl, rfl, rfl, rfl, rfl, rfl, rfl, rfl, rfl, rfl, rfl⟩

/-- C6: for every span, marker key and block context,
`UnderlineSerializer.render_prefix` returns the inline-styled wrapper
`<span style="text-decoration:underline;">` and
`UnderlineSerializer.render_suffix` (inherited, with `tag = 'span'`) returns
the generic closing tag `</span>`. -/
theorem underline_fixed_wrapper (s : Span) (m : String) (c : Block) :
    UnderlineSerializer.render_prefix s m c = .ok "<span style=\"text-decoration:underline;\">"
    ∧ UnderlineSerializer.render_suffix s m c = .ok "</span>" :=
  ⟨rfl, rfl⟩

/-- C7: for every span, marker key and block context,
`CommentSerializer.render_prefix` and `CommentSerializer.render_suffix` return
an HTML comment delimiter pair (the opening delimiter begins with the four
characters of the comment opener, the closing delimiter ends with the three of
the comment closer), they never raise, and the strings are independent of the
span, the marker key and the context. -/
theorem comment_delimiter_pair (s s2 : Span) (m m2 : String) (c c2 : Block) :
    CommentSerializer.render_prefix s m c = .ok ("<!--" ++ " ")
    ∧ CommentSerializer.render_suffix s m c = .ok (" " ++ "-->")
    ∧ CommentSerializer.render_prefix s m c = CommentSerializer.render_prefix s2 m2 c2
    ∧ CommentSerializer.render_suffix s m c = CommentSerializer.render_suffix s2 m2 c2 :=
  ⟨rfl, rfl, rfl, rfl⟩

/-- C1 (counterexample): `MarkerSerializer.render` does not HTML-escape the
span text. On the span with text `a<b` under the emphasis serializer it
returns `<em>a<b</em>`, with the `<` of the text raw, which differs from
prefix + HTML-escaped text + suffix. -/
theorem render_escapes_text_cex :
    MarkerSerializer.render EmphasisSerializer { text := "a<b", marks := ["em"] } "em"
        { children := [], style := "normal", markDefs := [] } =
      .ok ("<em>" ++ "a<b" ++ "</em>")
    ∧ ("<em>" ++ "a<b" ++ "</em>" : String) ≠ "<em>" ++ html_escape "a<b" ++ "</em>" :=
  ⟨rfl, by decide⟩

/-- C1 (amended): for every serializer, span, marker key and block context,
whenever `render_prefix` and `render_suffix` return strings `p` and `s`,
`MarkerSerializer.render` returns exactly `p ++ span.text ++ s`: the span's
raw text is emitted as-is, with no escaping applied by the serializer. -/
theorem render_concat_raw_text (cls : Serializer) (span : Span) (marker : String)
    (context : Block) (p s : String)
    (hp : cls.render_prefix span marker context = .ok p)
    (hs : cls.render_suffix span marker context = .ok s) :
    MarkerSerializer.render cls span marker context = .ok (p ++ span.text ++ s) := by
  unfold MarkerSerializer.render
  simp only [hp, hs]
  rfl

/-- C1 (witness): the amended statement at the emphasis serializer on the span
with text `sanity`. -/
theorem render_concat_raw_text_witness :
    MarkerSerializer.render EmphasisSerializer { text := "sanity", marks := ["em"] } "em"
        { children := [], style := "normal", markDefs := [] } =
      .ok ("<em>" ++ "sanity" ++ "</em>") :=
  render_concat_raw_text EmphasisSerializer { text := "sanity", marks := ["em"] } "em"
    { children := [], style := "normal", markDefs := [] } "<em>" "</em>" rfl rfl

/-- C2: when no entry of the context's `markDefs` has `_key` equal to the
marker key, `LinkSerializer.render_prefix` raises (returns an error, never a
string), and the error message names the offending marker key. -/
theorem link_missing_markdef_errors (span : Span) (marker : String) (context : Block)
    (h : ∀ md ∈ context.markDefs, md._key ≠ marker) :
    LinkSerializer.render_prefix span marker context =
      .error ("Marker definition for key: " ++ marker ++ " not found in parent block context") := by
  have hf : context.markDefs.find? (fun md => md._key == marker) = none := by
    rw [List.find?_eq_none]
    intro md hmd
    simpa using h md hmd
  simp [LinkSerializer.render_prefix, hf]

/-- C2 (witness): the dangling marker key `k1` against an empty mark-definition
list. -/
theorem link_missing_markdef_errors_witness :
    LinkSerializer.render_prefix { text := "x", marks := ["k1"] } "k1"
        { children := [], style := "normal", markDefs := [] } =
      .error ("Marker definition for key: " ++ "k1" ++ " not found in parent block context") :=
  link_missing_markdef_errors { text := "x", marks := ["k1"] } "k1"
    { children := [], style := "normal", markDefs := [] } (by simp)

/-- C3 (code evaluated at the failing input): the looked-up `href` is
interpolated into the anchor tag verbatim, with no attribute-escaping, so a
double quote inside the `href` terminates the attribute value: the definition
with `href` equal to `" onmouseover="alert(1)` yields the opening tag
`<a href="" onmouseover="alert(1)">`, which differs from the tag built from
the escaped `href`. -/
theorem link_href_quote_unescaped :
    LinkSerializer.render_prefix { text := "Otovo", marks := ["k1"] } "k1"
        { children := [], style := "normal",
          markDefs := [{ _key := "k1", href := some "\" onmouseover=\"alert(1)" }] } =
      .ok "<a href=\"\" onmouseover=\"alert(1)\">"
    ∧ ("<a href=\"\" onmouseover=\"alert(1)\">" : String) ≠
        "<a href=\"" ++ html_escape "\" onmouseover=\"alert(1)" ++ "\">" :=
  ⟨rfl, by decide⟩

/-- C5 (counterexample): `DefaultMarkerSerializer` wraps the span text in
`<span>...</span>` without escaping it: on text `a<b` the render output keeps
the `<` of the text raw, differing from the wrapper around the escaped text. -/
theorem default_render_escapes_cex :
    MarkerSerializer.render DefaultMarkerSerializer { text := "a<b", marks := [] } "x"
        { children := [], style := "normal", markDefs := [] } =
      .ok ("<span>" ++ "a<b" ++ "</span>")
    ∧ ("<span>" ++ "a<b" ++ "</span>" : String) ≠ "<span>" ++ html_escape "a<b" ++ "</span>" :=
  ⟨rfl, by decide⟩

/-- C5 (amended): the default fallback serializer never raises: for every
span, marker key and block context, `render_prefix` returns `<span>`,
`render_suffix` returns `</span>`, and `MarkerSerializer.render` wraps the
span's text as-is in `<span>...</span>`. -/
theorem default_serializer_total_span_wrap (span : Span) (marker : String) (context : Block) :
    DefaultMarkerSerializer.render_prefix span marker context = .ok "<span>"
    ∧ DefaultMarkerSerializer.render_suffix span marker context = .ok "</span>"
    ∧ MarkerSerializer.render DefaultMarkerSerializer span marker context =
        .ok ("<span>" ++ span.text ++ "</span>") :=
  ⟨rfl, rfl, rfl⟩

/-- C9: when a mark definition matching the marker key exists in the context
but every matching definition carries no `href` attribute,
`LinkSerializer.render_prefix` does not raise and returns the literal anchor
tag with an empty href. -/
theorem link_missing_href_empty (span : Span) (marker : String) (context : Block)
    (h1 : ∃ md ∈ context.markDefs, md._key = marker)
    (h2 : ∀ md ∈ context.markDefs, md._key = marker → md.href = none) :
    LinkSerializer.render_prefix span marker context = .ok "<a href=\"\">" := by
  have hs : (context.markDefs.find? (fun md => md._key == marker)).isSome := by
    rw [List.find?_isSome]
    obtain ⟨md, hmd, hk⟩ := h1
    exact ⟨md, hmd, by simp [hk]⟩
  obtain ⟨md, hmd⟩ := Option.isSome_iff_exists.mp hs
  have hk : md._key = marker := by simpa using List.find?_some hmd
  have hhref : md.href = none := h2 md (List.mem_of_find?_eq_some hmd) hk
  simp [LinkSerializer.render_prefix, hmd, hhref]

/-- C9 (witness): a single matching definition with no `href`. -/
theorem link_missing_href_empty_witness :
    LinkSerializer.render_prefix { text := "t", marks := ["k"] } "k"
        { children := [], style := "normal", markDefs := [{ _key := "k", href := none }] } =
      .ok "<a href=\"\">" :=
  link_missing_href_empty { text := "t", marks := ["k"] } "k"
    { children := [], style := "normal", markDefs := [{ _key := "k", href := none }] }
    ⟨{ _key := "k", href := none }, by simp, rfl⟩
    (by intro md hmd hk; simp at hmd; simp [hmd])

/-- Helper: `List.find?` on a list split as `l1 ++ md1 :: l2`, where nothing in
`l1` satisfies the predicate and `md1` does, returns `md1` — the earliest
match, whatever follows it. -/
theorem find_first_match {p : MarkDef → Bool} (l1 l2 : List MarkDef) (md1 : MarkDef)
    (h1 : ∀ md ∈ l1, p md = false) (hk : p md1 = true) :
    (l1 ++ md1 :: l2).find? p = some md1 := by
  induction l1 with
  | nil => simpa using List.find?_cons_of_pos l2 hk
  | cons a t ih =>
      rw [List.cons_append, List.find?_cons_of_neg]
      · exact ih fun md hmd => h1 md (List.mem_cons_of_mem a hmd)
      · simp [h1 a (List.mem_cons_self a t)]

/-- C10: when the context's mark-definition list splits as `l1 ++ md1 :: l2`
with no entry of `l1` matching the marker key and `md1` matching it,
`LinkSerializer.render_prefix` emits the href of `md1`, the earliest matching
definition; the later entries `l2` (duplicates of the key included) have no
effect on the output. -/
theorem link_first_matching_markdef (span : Span) (marker : String) (context : Block)
    (l1 l2 : List MarkDef) (md1 : MarkDef)
    (hc : context.markDefs = l1 ++ md1 :: l2)
    (h1 : ∀ md ∈ l1, md._key ≠ marker)
    (hk : md1._key = marker) :
    LinkSerializer.render_prefix span marker context =
      .ok ("<a href=\"" ++ md1.href.getD "" ++ "\">") := by
  have hf : context.markDefs.find? (fun md => md._key == marker) = some md1 := by
    rw [hc]
    refine find_first_match l1 l2 md1 ?_ (by simp [hk])
    intro md hmd
    simp [h1 md hmd]
  simp [LinkSerializer.render_prefix, hf]

/-- C10 (witness): two definitions with the same key `k`; the emitted href is
that of the first one. -/
theorem link_first_matching_markdef_witness :
    LinkSerializer.render_prefix { text := "t", marks := ["k"] } "k"
        { children := [], style := "normal",
          markDefs := [{ _key := "k", href := some "https://first.example" },
                       { _key := "k", href := some "https://second.example" }] } =
      .ok "<a href=\"https://first.example\">" := by
  have h := link_first_matching_markdef { text := "t", marks := ["k"] } "k"
    { children := [], style := "normal",
      markDefs := [{ _key := "k", href := some "https://first.example" },
                   { _key := "k", href := some "https://second.example" }] }
    [] [{ _key := "k", href := some "https://second.example" }]
    { _key := "k", href := some "https://first.example" }
    rfl (by simp) rfl
  simpa using h

/-- C8: every serializer operation is pure with respect to its argument
objects: in the state-passing reading of each method body (base prefix and
suffix for any tag, the underline and comment overrides, the link lookup on
both its success and its raising path, and the `render` combinator dispatched
to the base pair and to the link pair), the span and the block after the call
equal the span and the block before it; and the value computed by the
state-passing link lookup agrees with the directly-embedded
`LinkSerializer.render_prefix`. -/
theorem serializer_ops_frame (tag marker : String) (st : PyState) :
    (MarkerSerializer.render_prefix_st tag marker st).2 = st
    ∧ (MarkerSerializer.render_suffix_st tag marker st).2 = st
    ∧ (UnderlineSerializer.render_prefix_st marker st).2 = st
    ∧ (CommentSerializer.render_prefix_st marker st).2 = st
    ∧ (CommentSerializer.render_suffix_st marker st).2 = st
    ∧ (LinkSerializer.render_prefix_st marker st).2 = st
    ∧ (MarkerSerializer.render_st (MarkerSerializer.render_prefix_st tag)
        (MarkerSerializer.render_suffix_st tag) marker st).2 = st
    ∧ (MarkerSerializer.render_st LinkSerializer.render_prefix_st
        (MarkerSerializer.render_suffix_st "a") marker st).2 = st
    ∧ (LinkSerializer.render_prefix_st marker st).1 =
        LinkSerializer.render_prefix st.1 marker st.2 := by
  refine ⟨rfl, rfl, rfl, rfl, rfl, ?_, rfl, ?_, ?_⟩
  · cases h : st.2.markDefs.find? (fun md => md._key == marker) <;>
      simp [LinkSerializer.render_prefix_st, h]
  · cases h : st.2.markDefs.find? (fun md => md._key == marker) <;>
      simp [MarkerSerializer.render_st, LinkSerializer.render_prefix_st,
        MarkerSerializer.render_suffix_st, h]
  · cases h : st.2.markDefs.find? (fun md => md._key == marker) <;>
      simp [LinkSerializer.render_prefix_st, LinkSerializer.render_prefix, h]
